import Mathlib

/-!
# Verification of the ChatAgent durable object (src/src/agent.ts)

Shallow embedding of the `ChatAgent` class: an in-memory message cache
mirroring a durable SQL-backed message log, a context builder with a
fixed sliding window, an inference client with response normalization,
and a request router (`fetch`) dispatching OPTIONS / POST /chat /
GET /history / POST /clear.

Effects are made explicit:
* wall-clock reads (`Date.now()`) become `Nat` parameters;
* the inference capability becomes an `AIResult` oracle value;
* storage success/failure becomes `Bool` oracle parameters;
* the JavaScript value `undefined` for a destructured missing field is
  modelled as `Option.none`.
-/

namespace ChatAgent

/-- A chat message, as in `interface Message` (agent.ts lines 11-15).
`content` is an `Option String`: `some s` is an ordinary string, `none`
models the JavaScript value `undefined` (the result of destructuring a
`message` field that is absent from the request body). -/
structure Message where
  role : String
  content : Option String
  timestamp : Nat
deriving Repr, DecidableEq

/-- The state of one ChatAgent instance: the in-memory array
`this.messages` and the rows of the durable `messages` table in
insertion order. -/
structure AgentState where
  cache : List Message
  store : List Message
deriving Repr, DecidableEq

/-- The fixed system instruction (agent.ts line 144). -/
def systemPrompt : String :=
  "You are a helpful AI assistant embedded in a blog. Help users with questions about the blog content, technology, or general topics. Be friendly and concise."

/-- Fallback returned when the capability result has no usable
`response` field (agent.ts line 167). -/
def fallbackNoResponse : String :=
  "I apologize, but I couldn't generate a response."

/-- Apology returned when the inference call throws (agent.ts line 170). -/
def fallbackError : String :=
  "I'm having trouble connecting to the AI service. Please try again."

/-- The CORS headers attached to every response (agent.ts lines 34-38). -/
def corsHeaders : List (String × String) :=
  [("Access-Control-Allow-Origin", "*"),
   ("Access-Control-Allow-Methods", "GET, POST, OPTIONS"),
   ("Access-Control-Allow-Headers", "Content-Type")]

/-- Headers of the JSON responses: `Content-Type` then the spread CORS
headers (agent.ts lines 114-117 and analogues). -/
def jsonHeaders : List (String × String) :=
  ("Content-Type", "application/json") :: corsHeaders

/-- What the completion capability (`env.AI.run`) produces:
a bare string, a structured object whose `response` field is a string
(`obj (some s)`) or absent/undefined (`obj none`), or a thrown error. -/
inductive AIResult
  | str (s : String)
  | obj (response : Option String)
  | throws
deriving Repr, DecidableEq

/-- A context entry sent to the model: role and content only,
timestamps dropped (agent.ts lines 146-149). -/
structure CtxMessage where
  role : String
  content : Option String
deriving Repr, DecidableEq

/-- `this.messages.slice(-10)`: the last 10 elements (all of them when
the list is shorter). -/
def lastTen (l : List Message) : List Message :=
  l.drop (l.length - 10)

/-- The `messages` array built in `generateAIResponse`
(agent.ts lines 140-154): the system instruction, then the last 10
cache entries with timestamps dropped, then the user utterance. -/
def buildContext (cache : List Message) (userMessage : Option String) :
    List CtxMessage :=
  ⟨"system", some systemPrompt⟩ ::
    ((lastTen cache).map fun m => ⟨m.role, m.content⟩) ++
      [⟨"user", userMessage⟩]

/-- Normalization of the capability result plus the surrounding
try/catch (agent.ts lines 163-171): a bare string is returned as is; a
structured object yields `response || fallbackNoResponse`, where the
JavaScript `||` takes the fallback when `response` is absent
(`undefined`) or the empty string (falsy); a thrown error yields the
fixed connection apology. -/
def runAI : AIResult → String
  | .str s => s
  | .obj (some s) => if s = "" then fallbackNoResponse else s
  | .obj none => fallbackNoResponse
  | .throws => fallbackError

/-- The inference call: the built context is sent to the capability,
whose behavior is the oracle `ai`; the result text does not otherwise
depend on the context. -/
def callAI (_ctx : List CtxMessage) (ai : AIResult) : String :=
  runAI ai

/-- `generateAIResponse` (agent.ts lines 137-172): builds the context
from the current cache and the user utterance and returns the
normalized completion text. -/
def generateAIResponse (cache : List Message) (userMessage : Option String)
    (ai : AIResult) : String :=
  callAI (buildContext cache userMessage) ai

/-- Storage-level failures surfaced by `state.storage.sql.exec`. -/
inductive StorageError
  | undefinedBinding
  | insertFailed
  | deleteFailed
deriving Repr, DecidableEq

/-- Error message carried in the `{success:false, error}` envelope for
a storage error (the exact platform text is irrelevant to the claims). -/
def StorageError.message : StorageError → String
  | .undefinedBinding => "Type error: invalid binding value"
  | .insertFailed => "SQL insert failed"
  | .deleteFailed => "SQL delete failed"

/-- `saveMessage` (agent.ts lines 174-185). The push onto
`this.messages` happens first; the durable INSERT follows. `insertOk`
is the oracle for the transactional write succeeding. A `none` content
(the JavaScript `undefined`) is rejected by the platform's parameter
binding — `SqlStorage.exec` accepts only string/number/ArrayBuffer/null
bindings — so the INSERT throws in that case regardless of `insertOk`.
The returned state is the state after the call, error or not: on a
failed insert the cache has already been mutated. -/
def saveMessage (st : AgentState) (m : Message) (insertOk : Bool) :
    AgentState × Option StorageError :=
  let cache' := st.cache ++ [m]
  if m.content.isNone then
    (⟨cache', st.store⟩, some .undefinedBinding)
  else if insertOk then
    (⟨cache', st.store ++ [m]⟩, none)
  else
    (⟨cache', st.store⟩, some .insertFailed)

/-- The request body of `POST /chat` as `handleChat` sees it:
`malformed` when `request.json()` throws (no/invalid JSON), otherwise
the destructured `message` field, `none` when the field is absent. -/
inductive ChatBody
  | malformed
  | fields (message : Option String)
deriving Repr, DecidableEq

/-- The JSON (or plain) bodies of the possible responses. -/
inductive RespBody
  | empty
  | notFound
  | chatOk (userMessage assistantMessage : Message) (messageCount : Nat)
  | chatErr (error : String)
  | historyOk (messages : List Message) (count : Nat)
  | clearOk
deriving Repr, DecidableEq

/-- The `success` field of the JSON envelope, `none` for non-JSON
bodies. -/
def RespBody.success : RespBody → Option Bool
  | .empty => none
  | .notFound => none
  | .chatOk _ _ _ => some true
  | .chatErr _ => some false
  | .historyOk _ _ => some true
  | .clearOk => some true

/-- An HTTP response: status, headers in written order, body. -/
structure HttpOut where
  status : Nat
  headers : List (String × String)
  body : RespBody
deriving Repr, DecidableEq

/-- `handleChat` (agent.ts lines 83-135). `t1`, `t2` are the two
`Date.now()` readings; `ok1`, `ok2` the insert oracles for the user and
assistant rows. Any error thrown inside the try block yields the
`{success:false, error}` envelope with status 500; the state at that
point is kept (the user-message push is not rolled back). -/
def handleChat (st : AgentState) (body : ChatBody) (t1 t2 : Nat)
    (ai : AIResult) (ok1 ok2 : Bool) : HttpOut × AgentState :=
  match body with
  | .malformed =>
      (⟨500, jsonHeaders, .chatErr "Unexpected end of JSON input"⟩, st)
  | .fields message =>
      let userMessage : Message := ⟨"user", message, t1⟩
      match saveMessage st userMessage ok1 with
      | (st1, some e) => (⟨500, jsonHeaders, .chatErr e.message⟩, st1)
      | (st1, none) =>
          let aiResponse := generateAIResponse st1.cache message ai
          let assistantMessage : Message := ⟨"assistant", some aiResponse, t2⟩
          match saveMessage st1 assistantMessage ok2 with
          | (st2, some e) => (⟨500, jsonHeaders, .chatErr e.message⟩, st2)
          | (st2, none) =>
              (⟨200, jsonHeaders,
                 .chatOk userMessage assistantMessage st2.cache.length⟩, st2)

/-- `handleGetHistory` (agent.ts lines 187-201): the cached messages
and their count, status 200. -/
def handleGetHistory (st : AgentState) : HttpOut × AgentState :=
  (⟨200, jsonHeaders, .historyOk st.cache st.cache.length⟩, st)

/-- `handleClear` (agent.ts lines 203-219): the durable DELETE runs
first, then the cache is reset. There is no try/catch, so a DELETE
failure (`deleteOk = false`) escapes as an uncaught error before the
cache is touched. -/
def handleClear (st : AgentState) (deleteOk : Bool) :
    Except StorageError HttpOut × AgentState :=
  if deleteOk then
    (.ok ⟨200, jsonHeaders, .clearOk⟩, ⟨[], []⟩)
  else
    (.error .deleteFailed, st)

/-- Stable insertion by ascending timestamp (an earlier element stays
before later elements with an equal timestamp). -/
def insertByTs (m : Message) : List Message → List Message
  | [] => [m]
  | x :: xs =>
      if x.timestamp < m.timestamp then x :: insertByTs m xs
      else m :: x :: xs

/-- Stable sort by ascending timestamp: the model of
`SELECT ... ORDER BY timestamp ASC` over the insertion-ordered rows. -/
def sortByTs : List Message → List Message
  | [] => []
  | x :: xs => insertByTs x (sortByTs xs)

/-- `initializeDatabase` (agent.ts lines 60-81), run at the top of
every `fetch`: `CREATE TABLE IF NOT EXISTS` leaves the rows unchanged,
then `this.messages` is replaced by all rows ordered by timestamp
ascending. -/
def initDatabase (st : AgentState) : AgentState :=
  ⟨sortByTs st.store, st.store⟩

/-- An incoming sub-request: method, pathname, and (for `/chat`) the
body. -/
structure Request where
  method : String
  path : String
  body : ChatBody
deriving Repr, DecidableEq

/-- `fetch` (agent.ts lines 27-58): hydrate, then dispatch. OPTIONS is
matched before any path; unmatched requests get a plain 404. The
`Except` is `.error` exactly when an error escapes uncaught (only the
DELETE of `/clear` can, in the modelled flows). -/
def fetch (st : AgentState) (req : Request) (t1 t2 : Nat) (ai : AIResult)
    (ok1 ok2 deleteOk : Bool) : Except StorageError HttpOut × AgentState :=
  let st0 := initDatabase st
  if req.method = "OPTIONS" then
    (.ok ⟨200, corsHeaders, .empty⟩, st0)
  else if req.path = "/chat" ∧ req.method = "POST" then
    let (out, st') := handleChat st0 req.body t1 t2 ai ok1 ok2
    (.ok out, st')
  else if req.path = "/history" ∧ req.method = "GET" then
    let (out, st') := handleGetHistory st0
    (.ok out, st')
  else if req.path = "/clear" ∧ req.method = "POST" then
    handleClear st0 deleteOk
  else
    (.ok ⟨404, corsHeaders, .notFound⟩, st0)

/-- A well-formed send request: `POST /chat` with body
`{message: msg}`. -/
def sendReq (msg : String) : Request :=
  ⟨"POST", "/chat", .fields (some msg)⟩

/-- A history request: `GET /history` (its body is never read). -/
def historyReq : Request :=
  ⟨"GET", "/history", .fields none⟩

/-- A clear request: `POST /clear` (its body is never read). -/
def clearReq : Request :=
  ⟨"POST", "/clear", .fields none⟩

/-- One send call's inputs: the utterance, the two `Date.now()`
readings, and the capability's behavior. -/
structure SendCall where
  msg : String
  t1 : Nat
  t2 : Nat
  ai : AIResult
deriving Repr, DecidableEq

/-- Run a sequence of send calls (all durable inserts succeeding) from
a state, threading the state through `fetch`. -/
def runSends (st : AgentState) (calls : List SendCall) : AgentState :=
  calls.foldl
    (fun s c => (fetch s (sendReq c.msg) c.t1 c.t2 c.ai true true true).2)
    st

/-- The messages a sequence of send calls is expected to produce:
per call, the user message then the assistant message. -/
def expectedMessages (calls : List SendCall) : List Message :=
  calls.flatMap fun c =>
    [⟨"user", some c.msg, c.t1⟩, ⟨"assistant", some (runAI c.ai), c.t2⟩]

/-- Timestamps are non-decreasing along the list. -/
def tsSorted : List Message → Bool
  | [] => true
  | [_] => true
  | a :: b :: rest =>
      decide (a.timestamp ≤ b.timestamp) && tsSorted (b :: rest)

/-- The context the claim C3 describes, written from the claim's words
for comparison with the code: system instruction, then the last 10
messages of the cache as it was BEFORE the new user utterance was
appended, then the new utterance. -/
def claimedContext (cacheBefore : List Message) (msg : String) :
    List CtxMessage :=
  ⟨"system", some systemPrompt⟩ ::
    ((lastTen cacheBefore).map fun m => ⟨m.role, m.content⟩) ++
      [⟨"user", some msg⟩]

/-- The context `handleChat` actually hands to the inference call on a
well-formed send: `generateAIResponse` is invoked after
`saveMessage(userMessage)`, so the window is taken from the cache with
the new user message already appended (agent.ts lines 93-96, 140). -/
def sentContext (cacheBefore : List Message) (msg : String) (t1 : Nat) :
    List CtxMessage :=
  buildContext (cacheBefore ++ [⟨"user", some msg, t1⟩]) (some msg)

/-! ## Helper lemmas -/

theorem tsSorted_tail {x : Message} {xs : List Message}
    (h : tsSorted (x :: xs) = true) : tsSorted xs = true := by
  cases xs with
  | nil => rfl
  | cons b rest =>
      simp only [tsSorted, Bool.and_eq_true] at h
      exact h.2

theorem tsSorted_append_left :
    ∀ {l l' : List Message}, tsSorted (l ++ l') = true → tsSorted l = true
  | [], _, _ => rfl
  | [_], _, _ => rfl
  | _ :: _ :: _, _, h => by
      simp only [List.cons_append, tsSorted, Bool.and_eq_true] at h ⊢
      exact ⟨h.1, tsSorted_append_left h.2⟩

theorem sortByTs_eq_self : ∀ {l : List Message}, tsSorted l = true →
    sortByTs l = l
  | [], _ => rfl
  | x :: xs, h => by
      rw [sortByTs, sortByTs_eq_self (tsSorted_tail h)]
      cases xs with
      | nil => rfl
      | cons b rest =>
          simp only [tsSorted, Bool.and_eq_true, decide_eq_true_eq] at h
          rw [insertByTs, if_neg (by omega)]

theorem insertByTs_length (m : Message) :
    ∀ l : List Message, (insertByTs m l).length = l.length + 1
  | [] => rfl
  | x :: xs => by
      rw [insertByTs]
      split
      · simp only [List.length_cons, insertByTs_length m xs]
      · simp only [List.length_cons]

theorem sortByTs_length : ∀ l : List Message,
    (sortByTs l).length = l.length
  | [] => rfl
  | x :: xs => by
      rw [sortByTs, insertByTs_length, sortByTs_length]
      rfl

/-- One well-formed send through `fetch`, both inserts succeeding:
the exact response and the exact state after. -/
theorem fetch_send_eq (st : AgentState) (msg : String) (t1 t2 : Nat)
    (ai : AIResult) :
    fetch st (sendReq msg) t1 t2 ai true true true =
      (.ok ⟨200, jsonHeaders,
         .chatOk ⟨"user", some msg, t1⟩ ⟨"assistant", some (runAI ai), t2⟩
           ((sortByTs st.store).length + 2)⟩,
       ⟨sortByTs st.store ++
          [⟨"user", some msg, t1⟩, ⟨"assistant", some (runAI ai), t2⟩],
        st.store ++
          [⟨"user", some msg, t1⟩, ⟨"assistant", some (runAI ai), t2⟩]⟩) := by
  simp [fetch, sendReq, initDatabase, handleChat, saveMessage,
    generateAIResponse, callAI]

/-- A history request through `fetch`: the response reports the
re-hydrated cache and its count; the store is untouched. -/
theorem fetch_history_eq (st : AgentState) (t1 t2 : Nat) (ai : AIResult)
    (ok1 ok2 delOk : Bool) :
    fetch st historyReq t1 t2 ai ok1 ok2 delOk =
      (.ok ⟨200, jsonHeaders,
         .historyOk (sortByTs st.store) (sortByTs st.store).length⟩,
       ⟨sortByTs st.store, st.store⟩) := by
  simp [fetch, historyReq, initDatabase, handleGetHistory]

/-- A clear request through `fetch` with the DELETE succeeding. -/
theorem fetch_clear_eq (st : AgentState) (t1 t2 : Nat) (ai : AIResult)
    (ok1 ok2 : Bool) :
    fetch st clearReq t1 t2 ai ok1 ok2 true =
      (.ok ⟨200, jsonHeaders, .clearOk⟩, ⟨[], []⟩) := by
  simp [fetch, clearReq, initDatabase, handleClear]

/-- An OPTIONS request through `fetch`, any path: the empty 200 with
the CORS headers; the store untouched, the cache re-hydrated. -/
theorem fetch_options_eq (st : AgentState) (path : String)
    (body : ChatBody) (t1 t2 : Nat) (ai : AIResult) (ok1 ok2 delOk : Bool) :
    fetch st ⟨"OPTIONS", path, body⟩ t1 t2 ai ok1 ok2 delOk =
      (.ok ⟨200, corsHeaders, .empty⟩, ⟨sortByTs st.store, st.store⟩) := by
  simp [fetch, initDatabase]

theorem expectedMessages_cons (c : SendCall) (cs : List SendCall) :
    expectedMessages (c :: cs) =
      ⟨"user", some c.msg, c.t1⟩ :: ⟨"assistant", some (runAI c.ai), c.t2⟩ ::
        expectedMessages cs := by
  simp [expectedMessages]

theorem expectedMessages_length : ∀ calls : List SendCall,
    (expectedMessages calls).length = 2 * calls.length
  | [] => rfl
  | c :: cs => by
      rw [expectedMessages_cons]
      simp only [List.length_cons, expectedMessages_length cs,
        List.length_cons]
      omega

/-- Running a sequence of send calls from a state whose cache mirrors
its (sorted) store appends exactly the expected user/assistant pairs to
both the cache and the store. -/
theorem runSends_spec : ∀ (calls : List SendCall) (l : List Message),
    tsSorted (l ++ expectedMessages calls) = true →
    runSends ⟨l, l⟩ calls =
      ⟨l ++ expectedMessages calls, l ++ expectedMessages calls⟩
  | [], l, _ => by simp [runSends, expectedMessages]
  | c :: cs, l, h => by
      have hl : tsSorted l = true := tsSorted_append_left h
      have hstep :
          (fetch ⟨l, l⟩ (sendReq c.msg) c.t1 c.t2 c.ai true true true).2 =
            ⟨l ++ [⟨"user", some c.msg, c.t1⟩,
                   ⟨"assistant", some (runAI c.ai), c.t2⟩],
             l ++ [⟨"user", some c.msg, c.t1⟩,
                   ⟨"assistant", some (runAI c.ai), c.t2⟩]⟩ := by
        rw [fetch_send_eq, sortByTs_eq_self hl]
      have h2 : tsSorted
          ((l ++ [⟨"user", some c.msg, c.t1⟩,
                  ⟨"assistant", some (runAI c.ai), c.t2⟩]) ++
            expectedMessages cs) = true := by
        rw [List.append_assoc]
        rw [expectedMessages_cons] at h
        simpa using h
      have hrest := runSends_spec cs
        (l ++ [⟨"user", some c.msg, c.t1⟩,
               ⟨"assistant", some (runAI c.ai), c.t2⟩]) h2
      rw [expectedMessages_cons]
      show runSends
          (fetch ⟨l, l⟩ (sendReq c.msg) c.t1 c.t2 c.ai true true true).2 cs = _
      rw [hstep, hrest, List.append_assoc]
      simp

/-! ## Claims -/

/-- C1: starting from an empty log, after any sequence of send calls —
with the `Date.now` readings non-decreasing across the run and all
durable inserts succeeding — a history request returns exactly the
user/assistant messages interleaved in call order (user then assistant
per send) with count twice the number of calls, and the returned
messages carry non-decreasing timestamps. -/
theorem history_after_sends (calls : List SendCall)
    (hclock : tsSorted (expectedMessages calls) = true)
    (t1 t2 : Nat) (ai : AIResult) (ok1 ok2 delOk : Bool) :
    (fetch (runSends ⟨[], []⟩ calls) historyReq t1 t2 ai ok1 ok2 delOk).1 =
      .ok ⟨200, jsonHeaders,
        .historyOk (expectedMessages calls) (2 * calls.length)⟩ ∧
    tsSorted (expectedMessages calls) = true := by
  have h0 : tsSorted ([] ++ expectedMessages calls) = true := by
    simpa using hclock
  have hrun := runSends_spec calls [] h0
  rw [List.nil_append] at hrun
  rw [hrun]
  refine ⟨?_, hclock⟩
  rw [fetch_history_eq]
  simp [sortByTs_eq_self hclock, expectedMessages_length]

/-- C1 witness: one send of "Hello" answered "Hi there", then
history. -/
theorem history_after_sends_witness :
    tsSorted (expectedMessages [⟨"Hello", 1, 2, .str "Hi there"⟩]) = true ∧
    ((fetch (runSends ⟨[], []⟩ [⟨"Hello", 1, 2, .str "Hi there"⟩]) historyReq
        0 0 .throws true true true).1 =
      .ok ⟨200, jsonHeaders,
        .historyOk (expectedMessages [⟨"Hello", 1, 2, .str "Hi there"⟩])
          (2 * 1)⟩ ∧
     tsSorted (expectedMessages [⟨"Hello", 1, 2, .str "Hi there"⟩]) = true) :=
  ⟨rfl, history_after_sends [⟨"Hello", 1, 2, .str "Hi there"⟩] rfl
    0 0 .throws true true true⟩

/-- C2 counterexample: a send whose durable user-message insert fails
completes with the 500 error envelope, yet the cache HAS been mutated
with the new message while the store has not — refuting both the
"cache never diverges from the log after a completed operation" part
and the "on a failed insert the cache has not been mutated" part
(agent.ts lines 174-185 push before the INSERT). -/
theorem append_atomicity_counterexample :
    (fetch ⟨[], []⟩ (sendReq "hi") 1 2 (.str "ok") false true true).1 =
      .ok ⟨500, jsonHeaders, .chatErr StorageError.insertFailed.message⟩ ∧
    (fetch ⟨[], []⟩ (sendReq "hi") 1 2 (.str "ok") false true true).2.cache =
      [⟨"user", some "hi", 1⟩] ∧
    (fetch ⟨[], []⟩ (sendReq "hi") 1 2 (.str "ok") false true true).2.store =
      [] ∧
    ([(⟨"user", some "hi", 1⟩ : Message)] : List Message) ≠ [] :=
  ⟨rfl, rfl, rfl, by decide⟩

/-- C2 amended: with the durable log timestamp-ordered, after every
successfully completed operation — send, history, clear — the in-memory
cache equals the durable log in content and order; but append is not
atomic: `saveMessage` pushes onto the cache before the durable INSERT,
so whichever insert fails (the user or the assistant message), the
failure is propagated as the 500 error envelope (no success response)
while the cache has already been mutated with that message, which the
failing insert did not write to the log — the divergence lasts until
the next request re-hydrates the cache. -/
theorem append_failure_divergence (st : AgentState) (msg : String)
    (t1 t2 : Nat) (ai : AIResult) (ok1 ok2 delOk : Bool)
    (hs : tsSorted st.store = true) :
    ((fetch st (sendReq msg) t1 t2 ai true true true).2.cache =
       (fetch st (sendReq msg) t1 t2 ai true true true).2.store) ∧
    ((fetch st historyReq t1 t2 ai ok1 ok2 delOk).2.cache =
       (fetch st historyReq t1 t2 ai ok1 ok2 delOk).2.store) ∧
    ((fetch st clearReq t1 t2 ai ok1 ok2 true).2.cache =
       (fetch st clearReq t1 t2 ai ok1 ok2 true).2.store) ∧
    ((fetch st (sendReq msg) t1 t2 ai false ok2 delOk).1 =
       .ok ⟨500, jsonHeaders, .chatErr StorageError.insertFailed.message⟩ ∧
     (fetch st (sendReq msg) t1 t2 ai false ok2 delOk).2.cache =
       st.store ++ [⟨"user", some msg, t1⟩] ∧
     (fetch st (sendReq msg) t1 t2 ai false ok2 delOk).2.store = st.store) ∧
    ((fetch st (sendReq msg) t1 t2 ai true false delOk).1 =
       .ok ⟨500, jsonHeaders, .chatErr StorageError.insertFailed.message⟩ ∧
     (fetch st (sendReq msg) t1 t2 ai true false delOk).2.cache =
       st.store ++ [⟨"user", some msg, t1⟩,
                    ⟨"assistant", some (runAI ai), t2⟩] ∧
     (fetch st (sendReq msg) t1 t2 ai true false delOk).2.store =
       st.store ++ [⟨"user", some msg, t1⟩]) := by
  refine ⟨?_, ?_, ?_, ⟨?_, ?_, ?_⟩, ⟨?_, ?_, ?_⟩⟩
  · rw [fetch_send_eq, sortByTs_eq_self hs]
  · rw [fetch_history_eq]
    simp [sortByTs_eq_self hs]
  · rw [fetch_clear_eq]
  · simp [fetch, sendReq, initDatabase, handleChat, saveMessage]
  · simp [fetch, sendReq, initDatabase, handleChat, saveMessage,
      sortByTs_eq_self hs]
  · simp [fetch, sendReq, initDatabase, handleChat, saveMessage]
  · simp [fetch, sendReq, initDatabase, handleChat, saveMessage,
      generateAIResponse, callAI]
  · simp [fetch, sendReq, initDatabase, handleChat, saveMessage,
      generateAIResponse, callAI, sortByTs_eq_self hs]
  · simp [fetch, sendReq, initDatabase, handleChat, saveMessage,
      sortByTs_eq_self hs]

/-- C2 witness: the amended statement at the empty state, exercising a
successful send, a history, a clear, and both failing inserts. -/
theorem append_failure_divergence_witness :
    tsSorted (AgentState.mk [] []).store = true ∧
    (((fetch ⟨[], []⟩ (sendReq "hi") 1 2 (.str "ok") true true true).2.cache =
        (fetch ⟨[], []⟩ (sendReq "hi") 1 2 (.str "ok") true true
            true).2.store) ∧
     ((fetch ⟨[], []⟩ historyReq 1 2 (.str "ok") true true true).2.cache =
        (fetch ⟨[], []⟩ historyReq 1 2 (.str "ok") true true true).2.store) ∧
     ((fetch ⟨[], []⟩ clearReq 1 2 (.str "ok") true true true).2.cache =
        (fetch ⟨[], []⟩ clearReq 1 2 (.str "ok") true true true).2.store) ∧
     ((fetch ⟨[], []⟩ (sendReq "hi") 1 2 (.str "ok") false true true).1 =
        .ok ⟨500, jsonHeaders, .chatErr StorageError.insertFailed.message⟩ ∧
      (fetch ⟨[], []⟩ (sendReq "hi") 1 2 (.str "ok") false true
          true).2.cache = [⟨"user", some "hi", 1⟩] ∧
      (fetch ⟨[], []⟩ (sendReq "hi") 1 2 (.str "ok") false true
          true).2.store = []) ∧
     ((fetch ⟨[], []⟩ (sendReq "hi") 1 2 (.str "ok") true false true).1 =
        .ok ⟨500, jsonHeaders, .chatErr StorageError.insertFailed.message⟩ ∧
      (fetch ⟨[], []⟩ (sendReq "hi") 1 2 (.str "ok") true false
          true).2.cache =
        [⟨"user", some "hi", 1⟩, ⟨"assistant", some "ok", 2⟩] ∧
      (fetch ⟨[], []⟩ (sendReq "hi") 1 2 (.str "ok") true false
          true).2.store = [⟨"user", some "hi", 1⟩])) :=
  ⟨rfl, append_failure_divergence ⟨[], []⟩ "hi" 1 2 (.str "ok")
    true true true rfl⟩

/-- C3 counterexample: on a send from an empty cache the context the
code builds contains the new user utterance twice — the window is taken
from the cache AFTER `saveMessage(userMessage)` ran (agent.ts lines
93-96, 140) — so it differs from the claimed context built from the
cache as it was before the append. -/
theorem context_window_counterexample :
    sentContext [] "hi" 1 ≠ claimedContext [] "hi" ∧
    sentContext [] "hi" 1 =
      [⟨"system", some systemPrompt⟩, ⟨"user", some "hi"⟩,
       ⟨"user", some "hi"⟩] ∧
    claimedContext [] "hi" =
      [⟨"system", some systemPrompt⟩, ⟨"user", some "hi"⟩] :=
  ⟨by decide, rfl, rfl⟩

/-- C3 amended: the context sent to the inference capability is the
fixed system instruction, then the last 10 messages of the cache AFTER
the new user utterance was appended — at most 9 strictly prior messages
followed by the new utterance itself — then the new utterance again as
the final message; in particular its total length never exceeds 12
(system instruction + at most 10 window entries + the final user
message). -/
theorem context_window_amended (cache : List Message) (msg : String)
    (t1 : Nat) :
    sentContext cache msg t1 =
      ⟨"system", some systemPrompt⟩ ::
        ((cache.drop (cache.length - 9)).map fun m => ⟨m.role, m.content⟩) ++
          [⟨"user", some msg⟩, ⟨"user", some msg⟩] ∧
    (sentContext cache msg t1).length ≤ 12 := by
  have hn : (cache ++ [(⟨"user", some msg, t1⟩ : Message)]).length - 10 =
      cache.length - 9 := by
    rw [List.length_append]
    simp
  have hdrop : lastTen (cache ++ [⟨"user", some msg, t1⟩]) =
      cache.drop (cache.length - 9) ++ [⟨"user", some msg, t1⟩] := by
    rw [lastTen, hn, List.drop_append_eq_append_drop]
    have h0 : cache.length - 9 - cache.length = 0 := by omega
    rw [h0]
    rfl
  constructor
  · rw [sentContext, buildContext, hdrop]
    simp
  · rw [sentContext, buildContext]
    simp [lastTen]
    omega

/-- C4 counterexample: when the inference capability throws, the
assistant message returned (and persisted) carries the connection
apology, which is a different string from the fixed fallback named by
the claim. -/
theorem inference_throw_counterexample :
    (fetch ⟨[], []⟩ (sendReq "Hello") 1 2 .throws true true true).1 =
      .ok ⟨200, jsonHeaders,
        .chatOk ⟨"user", some "Hello", 1⟩
          ⟨"assistant", some fallbackError, 2⟩ 2⟩ ∧
    fallbackError ≠ fallbackNoResponse :=
  ⟨rfl, by decide⟩

/-- C4 amended: if the inference capability throws, the send still
succeeds (success true, status 200) and the assistant message equals
the fixed connection apology "I'm having trouble connecting to the AI
service. Please try again." — not the "I apologize…" fallback — and
that message is appended to both the cache and the durable log like any
other assistant message. -/
theorem inference_throw_fallback (st : AgentState) (msg : String)
    (t1 t2 : Nat) :
    fetch st (sendReq msg) t1 t2 .throws true true true =
      (.ok ⟨200, jsonHeaders,
         .chatOk ⟨"user", some msg, t1⟩ ⟨"assistant", some fallbackError, t2⟩
           (st.store.length + 2)⟩,
       ⟨sortByTs st.store ++
          [⟨"user", some msg, t1⟩, ⟨"assistant", some fallbackError, t2⟩],
        st.store ++
          [⟨"user", some msg, t1⟩, ⟨"assistant", some fallbackError, t2⟩]⟩) ∧
    (RespBody.chatOk ⟨"user", some msg, t1⟩
        ⟨"assistant", some fallbackError, t2⟩
        (st.store.length + 2)).success = some true := by
  refine ⟨?_, rfl⟩
  rw [fetch_send_eq, sortByTs_length]
  rfl

/-- C5: a POST /chat whose JSON parse throws, or whose valid JSON body
lacks the message field (the destructured undefined is then rejected by
the durable insert's parameter binding), is answered with the
{success:false, error} envelope on status 500. -/
theorem chat_missing_message_500 (st : AgentState) (t1 t2 : Nat)
    (ai : AIResult) (ok1 ok2 delOk : Bool) (body : ChatBody)
    (h : body = .malformed ∨ body = .fields none) :
    ∃ e : String,
      (fetch st ⟨"POST", "/chat", body⟩ t1 t2 ai ok1 ok2 delOk).1 =
        .ok ⟨500, jsonHeaders, .chatErr e⟩ ∧
      (RespBody.chatErr e).success = some false := by
  rcases h with h | h <;> subst h
  · exact ⟨"Unexpected end of JSON input",
      by simp [fetch, initDatabase, handleChat], rfl⟩
  · exact ⟨StorageError.undefinedBinding.message,
      by simp [fetch, initDatabase, handleChat, saveMessage], rfl⟩

/-- C5 witness: a body whose message field is absent, at the empty
state. -/
theorem chat_missing_message_500_witness :
    (ChatBody.fields none = ChatBody.malformed ∨
      ChatBody.fields none = ChatBody.fields none) ∧
    ∃ e : String,
      (fetch ⟨[], []⟩ ⟨"POST", "/chat", .fields none⟩ 0 0 .throws
          true true true).1 =
        .ok ⟨500, jsonHeaders, .chatErr e⟩ ∧
      (RespBody.chatErr e).success = some false :=
  ⟨Or.inr rfl, chat_missing_message_500 ⟨[], []⟩ 0 0 .throws true true true
    (.fields none) (Or.inr rfl)⟩

/-- C6: clear responds with the bare success acknowledgment, and a
history immediately after returns an empty message list with count 0,
whatever the prior state. -/
theorem clear_then_history (st : AgentState) (t1 t2 t3 t4 : Nat)
    (ai ai' : AIResult) (ok1 ok2 ok3 ok4 delOk' : Bool) :
    (fetch st clearReq t1 t2 ai ok1 ok2 true).1 =
      .ok ⟨200, jsonHeaders, .clearOk⟩ ∧
    (fetch (fetch st clearReq t1 t2 ai ok1 ok2 true).2 historyReq t3 t4 ai'
        ok3 ok4 delOk').1 =
      .ok ⟨200, jsonHeaders, .historyOk [] 0⟩ := by
  constructor
  · rw [fetch_clear_eq]
  · rw [fetch_clear_eq, fetch_history_eq]
    rfl

/-- C7 counterexample: a structured result whose response field is
present but empty is NOT returned unchanged — the client yields the
fixed fallback string instead of the (empty) field value. -/
theorem normalize_empty_response_counterexample :
    runAI (.obj (some "")) = fallbackNoResponse ∧
    runAI (.obj (some "")) ≠ "" :=
  ⟨rfl, by decide⟩

/-- C7 amended: a bare string result is the answer unchanged — every
bare string, the empty one included; a structured object's response
field is extracted and returned when it is a non-empty string; when the
field is absent or empty (falsy), the fixed fallback string is
returned. -/
theorem normalize_response_amended (s t : String) (h : t ≠ "") :
    runAI (.str s) = s ∧ runAI (.obj (some t)) = t ∧
    runAI (.obj none) = fallbackNoResponse ∧
    runAI (.obj (some "")) = fallbackNoResponse := by
  refine ⟨rfl, ?_, rfl, rfl⟩
  simp [runAI, h]

/-- C7 witness: the amended statement at the empty bare string and the
non-empty field "Hi". -/
theorem normalize_response_amended_witness :
    ("Hi" : String) ≠ "" ∧
    (runAI (.str "") = "" ∧ runAI (.obj (some "Hi")) = "Hi" ∧
     runAI (.obj none) = fallbackNoResponse ∧
     runAI (.obj (some "")) = fallbackNoResponse) :=
  ⟨by decide, normalize_response_amended "" "Hi" (by decide)⟩

/-- C8 counterexample: from a state whose cache has diverged from the
durable log (exactly what a failed insert leaves behind), handling an
OPTIONS request rewrites the in-memory cache, because `fetch` runs the
re-hydration before the OPTIONS check — refuting "neither the in-memory
cache nor the durable log is changed". -/
theorem options_rehydrates_counterexample :
    (fetch ⟨[⟨"user", some "hi", 1⟩], []⟩
        ⟨"OPTIONS", "/anything", .fields none⟩ 0 0 .throws
        true true true).2.cache = [] ∧
    ([(⟨"user", some "hi", 1⟩ : Message)] : List Message) ≠ [] :=
  ⟨rfl, by decide⟩

/-- C8 amended: every OPTIONS request, regardless of path, is answered
with an empty-bodied 200 carrying exactly the three permissive CORS
headers, and the durable log is never changed; the in-memory cache is
replaced by the re-hydrated log, which leaves the state unchanged
whenever the cache already mirrors the (timestamp-sorted) log. -/
theorem options_no_store_effect (st : AgentState) (path : String)
    (body : ChatBody) (t1 t2 : Nat) (ai : AIResult) (ok1 ok2 delOk : Bool) :
    fetch st ⟨"OPTIONS", path, body⟩ t1 t2 ai ok1 ok2 delOk =
      (.ok ⟨200, corsHeaders, .empty⟩, ⟨sortByTs st.store, st.store⟩) ∧
    (fetch ⟨sortByTs st.store, st.store⟩ ⟨"OPTIONS", path, body⟩ t1 t2 ai
        ok1 ok2 delOk).2 = ⟨sortByTs st.store, st.store⟩ :=
  ⟨fetch_options_eq .., by rw [fetch_options_eq]⟩

/-- C9: a present-but-empty response field (the falsy string) makes the
client return the fixed fallback string rather than the empty string,
just as an absent field does. -/
theorem empty_response_fallback :
    runAI (.obj (some "")) = fallbackNoResponse ∧
    runAI (.obj (some "")) ≠ "" ∧
    runAI (.obj none) = fallbackNoResponse :=
  ⟨rfl, by decide, rfl⟩

/-- C10: the durable DELETE precedes the cache reset: when the DELETE
fails, `handleClear` leaves its state (cache and store) exactly as it
was on entry and the error escapes uncaught, so `fetch` produces no
success response for the clear. -/
theorem clear_delete_failure (st : AgentState) (t1 t2 : Nat)
    (ai : AIResult) (ok1 ok2 : Bool) :
    handleClear st false = (.error .deleteFailed, st) ∧
    fetch st clearReq t1 t2 ai ok1 ok2 false =
      (.error .deleteFailed, initDatabase st) :=
  ⟨rfl, by simp [fetch, clearReq, initDatabase, handleClear]⟩

end ChatAgent
